import Mathlib

/-!
Shallow embedding of the BIDashboard backend (FastAPI / clean-architecture
variant) in Lean 4, together with theorems settling the frozen claims about
its specification.

Conventions of the embedding:
* persistent stores (SQL tables) are lists of domain entities, threaded
  explicitly through the operations that read or write them;
* Python exceptions (`raise ValueError(msg)`, `jwt.InvalidTokenError`) become
  `Except String` results, the message string carrying the Python message;
* timestamps are natural numbers counting milliseconds since the epoch, so
  that `int(now.timestamp())` (whole seconds) becomes `nowMs / 1000`;
* the external `bcrypt` and `hashlib.sha256` primitives are replaced by
  injective string stand-ins (their cryptographic content is irrelevant to
  every claim, which only needs that verify agrees with hash);
* filesystem paths are lists of components; an abstract filesystem is the
  list of (resolved, absolute) paths of the files that exist.
-/

namespace BIDashboard

/-- Decidable equality of `Except` results, so that concrete runs of the
embedded operations can be checked by `decide`. -/
instance {ε α : Type} [DecidableEq ε] [DecidableEq α] : DecidableEq (Except ε α) :=
  fun a b =>
    match a, b with
    | .error e1, .error e2 =>
      if h : e1 = e2 then isTrue (by rw [h])
      else isFalse (fun hc => h ((Except.error.injEq _ _).mp hc))
    | .ok v1, .ok v2 =>
      if h : v1 = v2 then isTrue (by rw [h])
      else isFalse (fun hc => h ((Except.ok.injEq _ _).mp hc))
    | .error _, .ok _ => isFalse (fun hc => Except.noConfusion hc)
    | .ok _, .error _ => isFalse (fun hc => Except.noConfusion hc)

/-! ## Python string primitives

Models of the Python `str` methods the backend uses, written over the
character list of the string so that they evaluate inside the kernel. -/

/-- Python `str.lower()`. -/
def py_lower (s : String) : String :=
  String.mk (s.toList.map Char.toLower)

/-- Python `str.strip()`: drop leading and trailing whitespace. -/
def py_strip (s : String) : String :=
  String.mk (((s.toList.dropWhile Char.isWhitespace).reverse.dropWhile
    Char.isWhitespace).reverse)

/-- Python `str.startswith(pre)`. -/
def py_startswith (s pre : String) : Bool :=
  pre.toList.isPrefixOf s.toList

/-- Python `str.split(sep)` for a one-character separator. -/
def splitOnChar (sep : Char) (s : String) : List String :=
  let step : List String × List Char → Char → List String × List Char := fun st c =>
    if c = sep then (st.1 ++ [String.mk st.2.reverse], [])
    else (st.1, c :: st.2)
  let r := s.toList.foldl step ([], [])
  r.1 ++ [String.mk r.2.reverse]

/-- Python `int(s)` restricted to the digit strings the backend feeds it
(the `sub` claim written by `str(user_id)`). -/
def py_int? (s : String) : Option Nat :=
  if s.toList ≠ [] ∧ s.toList.all Char.isDigit then
    some (s.toList.foldl (fun n c => 10 * n + (c.toNat - 48)) 0)
  else none

/-! ## Domain entities (src/backend/domain/entities) -/

/-- Domain user entity (`domain/entities/user.py`). `last_login_date` is in
milliseconds; fields irrelevant to the claims keep their source names. -/
structure User where
  id : Nat
  username : String
  email : String
  first_name : String
  last_name : String
  hashed_password : String
  is_admin : Bool
  is_active : Bool
  last_login_date : Option Nat
deriving DecidableEq

/-- Domain dashboard entity (`domain/entities/dashboard.py`). -/
structure Dashboard where
  id : Option Nat
  titulo : String
  url_acceso : String
  categoria : String
  subcategoria : Option String
  descripcion : Option String
  url_imagen_preview : Option String
  created_by : Nat
deriving DecidableEq

/-- `Dashboard.can_be_edited_by`: admin or creator. -/
def Dashboard.can_be_edited_by (d : Dashboard) (user_id : Nat) (is_admin : Bool) : Bool :=
  is_admin || d.created_by == user_id

/-- `Dashboard.can_be_deleted_by`: admin or creator. -/
def Dashboard.can_be_deleted_by (d : Dashboard) (user_id : Nat) (is_admin : Bool) : Bool :=
  is_admin || d.created_by == user_id

/-- Domain employee entity (`domain/entities/employee.py`), only the fields
needed by the repository-update claim. -/
structure Employee where
  id : Option Nat
  first_name : String
  last_name : String
  email : String
  department : String
  position : String
  salary : Int
  status : String
  created_by : Nat
deriving DecidableEq

/-! ## Repositories (src/backend/infrastructure/database/repositories.py) -/

/-- `UserRepository.get_by_id`: first row whose id column matches. -/
def UserRepository.get_by_id (users : List User) (user_id : Nat) : Option User :=
  users.find? (fun u => u.id == user_id)

/-- `UserRepository.get_by_username`: first row whose username column matches. -/
def UserRepository.get_by_username (users : List User) (username : String) : Option User :=
  users.find? (fun u => u.username == username)

/-- `UserRepository.get_by_email`: first row whose email column matches. -/
def UserRepository.get_by_email (users : List User) (email : String) : Option User :=
  users.find? (fun u => u.email == email)

/-- `UserRepository.update`: `_from_domain` loads the row with the entity's id,
overwrites every mapped column, and commits — modelled as replacing the
matching row. -/
def UserRepository.update (users : List User) (user : User) : List User :=
  users.map (fun u => if u.id == user.id then user else u)

/-- `UserRepository.create`: the database assigns the autoincrement id,
modelled as one more than the largest id present, and appends the row. -/
def UserRepository.create (users : List User) (user : User) : User × List User :=
  let newId := (users.map (fun u => u.id)).foldr max 0 + 1
  let stored := { user with id := newId }
  (stored, users ++ [stored])

/-- `DashboardRepository.get_by_id`. -/
def DashboardRepository.get_by_id (ds : List Dashboard) (dashboard_id : Nat) :
    Option Dashboard :=
  ds.find? (fun d => d.id == some dashboard_id)

/-- `DashboardRepository.update`: the source is a simplified passthrough
(`return dashboard`) that touches no session state. -/
def DashboardRepository.update (ds : List Dashboard) (dashboard : Dashboard) :
    Dashboard × List Dashboard :=
  (dashboard, ds)

/-- `DashboardRepository.delete`: query the row by id; if present delete it
and return true, else return false. -/
def DashboardRepository.delete (ds : List Dashboard) (dashboard_id : Nat) :
    Bool × List Dashboard :=
  match ds.find? (fun d => d.id == some dashboard_id) with
  | some _ => (true, ds.eraseP (fun d => d.id == some dashboard_id))
  | none => (false, ds)

/-- `EmployeeRepository.update`: the source is a simplified passthrough
(`return employee`). -/
def EmployeeRepository.update (es : List Employee) (employee : Employee) :
    Employee × List Employee :=
  (employee, es)

/-- Inner loop of `DashboardRepository.get_featured_by_categories`: scan the
rows for the first whose `category_name` matches `category` case-insensitively;
a non-matching row additionally breaks the scan when the featured list has
already reached `limit`. -/
def featuredInner (limit featuredLen : Nat) (data : List Dashboard)
    (category : String) : Option Dashboard :=
  match data with
  | [] => none
  | item :: rest =>
    if py_lower item.categoria == py_lower category then some item
    else if limit ≤ featuredLen then none
    else featuredInner limit featuredLen rest category

/-- Outer loop of `DashboardRepository.get_featured_by_categories`: per
category in order, append the inner-loop hit (if any), then break once the
accumulated list has reached `limit`. -/
def featuredOuter (data : List Dashboard) (limit : Nat) (featured : List Dashboard) :
    List String → List Dashboard
  | [] => featured
  | category :: rest =>
    let featured2 :=
      match featuredInner limit featured.length data category with
      | some item => featured ++ [item]
      | none => featured
    if limit ≤ featured2.length then featured2
    else featuredOuter data limit featured2 rest

/-- `DashboardRepository.get_featured_by_categories`. -/
def DashboardRepository.get_featured_by_categories (data : List Dashboard)
    (categories : List String) (limit : Nat) : List Dashboard :=
  featuredOuter data limit [] categories

/-! ## Local file storage (src/backend/infrastructure/security/file_storage_service.py) -/

/-- Split a path string into its components, dropping empty pieces: this is
`file_path.lstrip("/")` followed by `pathlib` parsing (`pathlib` collapses
repeated separators). -/
def splitPath (s : String) : List String :=
  (splitOnChar '/' s).filter (fun c => c ≠ "")

/-- Lexical `Path.resolve()` on an absolute component list: `.` is dropped,
`..` removes the previous component (at the root it stays at the root). -/
def resolvePath (comps : List String) : List String :=
  comps.foldl
    (fun acc c =>
      if c = "." then acc
      else if c = ".." then acc.dropLast
      else acc ++ [c])
    []

/-- `str()` of an absolute path: slash-joined components. -/
def renderPath (comps : List String) : String :=
  "/" ++ String.intercalate "/" comps

/-- `LocalFileStorageService.delete_file`.  `base` is the (absolute) base
directory, `fs` the set of resolved paths of existing files.  The source
strips leading slashes, joins onto the base, and — only when the joined path
exists as a file — compares `str(full_path.resolve())` with
`str(base.resolve())` by `startswith`; a failed comparison raises, which the
surrounding `except` turns into `False`.  Returns (result, filesystem after). -/
def LocalFileStorageService.delete_file (base : List String)
    (fs : List (List String)) (file_path : String) : Bool × List (List String) :=
  let clean := splitPath file_path
  let resolved := resolvePath (base ++ clean)
  if fs.contains resolved then
    if py_startswith (renderPath resolved) (renderPath (resolvePath base)) then
      (true, fs.eraseP (fun p => p == resolved))
    else
      (false, fs)
  else
    (false, fs)

/-! ## Password hashing (src/backend/infrastructure/security/password_hasher.py) -/

/-- Stand-in for `bcrypt.hashpw` with the configured cost factor: an injective
tag of the password.  Claims never depend on cryptographic properties, only on
verify agreeing with hash. -/
def bcrypt_hashpw (password : String) : String :=
  "bcrypt2b12" ++ password

/-- `BcryptPasswordHasher.hash_password`: raises on an empty password. -/
def BcryptPasswordHasher.hash_password (password : String) : Except String String :=
  if password = "" then .error "Password cannot be empty"
  else .ok (bcrypt_hashpw password)

/-- `BcryptPasswordHasher.verify_password`: false on empty inputs, otherwise
`bcrypt.checkpw`, i.e. the stored hash is the hash of the plaintext. -/
def BcryptPasswordHasher.verify_password (plain hashed : String) : Bool :=
  if plain = "" ∨ hashed = "" then false
  else hashed == bcrypt_hashpw plain

/-! ## JWT service (src/backend/infrastructure/security/jwt_service.py)

The service is constructed with the defaults of the clean-architecture
backend: 30-minute access tokens, 7-day refresh tokens, one symmetric key.
A `Token` is a compact serialization together with its decoded payload; the
`sigValid` flag says whether the serialization verifies under the service
key (tokens produced by the service always do).  The revocation set is the
`_revoked_tokens : Set[str]` field, modelled as a list of strings. -/

/-- Decoded JWT payload.  `iat`, `exp`, `nbf` are millisecond timestamps
(`datetime.timestamp()` values); only `jti` is optional, matching a foreign
token that omits it. -/
structure TokenPayload where
  sub : String
  username : String
  is_admin : Bool
  typ : String
  iat : Nat
  exp : Nat
  nbf : Nat
  jti : Option String
deriving DecidableEq

/-- Stand-in for `jwt.encode(payload, key)`: an injective rendering, never
empty. -/
def jwt_encode (p : TokenPayload) : String :=
  "jwt." ++ p.typ ++ "." ++ p.sub ++ "." ++ p.username ++ "." ++ toString p.iat

/-- A JWT as presented to the service: the compact string plus what decoding
it yields. -/
structure Token where
  payload : TokenPayload
  sigValid : Bool
  enc : String
deriving DecidableEq

/-- Stand-in for `hashlib.sha256(token.encode()).hexdigest()` used by the
revocation fallback; injective tag of the compact string. -/
def sha256_hex (s : String) : String :=
  "sha256:" ++ s

/-- `JwtTokenService.generate_access_token` at current time `nowMs` with an
explicit expiry delta (milliseconds).  `jti` is
`access_{user_id}_{int(now.timestamp())}`, the timestamp truncated to whole
seconds. -/
def JwtTokenService.generate_access_token (user_id : Nat) (username : String)
    (is_admin : Bool) (nowMs deltaMs : Nat) : Token :=
  let p : TokenPayload :=
    { sub := toString user_id
      username := username
      is_admin := is_admin
      typ := "access"
      iat := nowMs
      exp := nowMs + deltaMs
      nbf := nowMs
      jti := some ("access_" ++ toString user_id ++ "_" ++ toString (nowMs / 1000)) }
  { payload := p, sigValid := true, enc := jwt_encode p }

/-- Default access-token lifetime: 30 minutes, in milliseconds. -/
def accessTokenDeltaMs : Nat := 30 * 60 * 1000

/-- `JwtTokenService.generate_refresh_token`: 7-day expiry, no `is_admin`
claim in the source (modelled as `false`), `jti` prefixed `refresh_`. -/
def JwtTokenService.generate_refresh_token (user_id : Nat) (username : String)
    (nowMs : Nat) : Token :=
  let p : TokenPayload :=
    { sub := toString user_id
      username := username
      is_admin := false
      typ := "refresh"
      iat := nowMs
      exp := nowMs + 7 * 24 * 60 * 60 * 1000
      nbf := nowMs
      jti := some ("refresh_" ++ toString user_id ++ "_" ++ toString (nowMs / 1000)) }
  { payload := p, sigValid := true, enc := jwt_encode p }

/-- `JwtTokenService.revoke_token`: decode without expiry verification (the
signature and `nbf` are still verified by PyJWT; any failure is caught and
returns false).  A truthy `jti` goes into the blacklist, otherwise the hash
of the compact string.  Returns (result, blacklist after). -/
def JwtTokenService.revoke_token (nowMs : Nat) (revoked : List String)
    (t : Token) : Bool × List String :=
  if ¬ t.sigValid ∨ nowMs < t.payload.nbf then (false, revoked)
  else
    match t.payload.jti with
    | some j =>
      if j ≠ "" then (true, j :: revoked)
      else (true, sha256_hex t.enc :: revoked)
    | none => (true, sha256_hex t.enc :: revoked)

/-- `JwtTokenService.is_token_revoked`: decode without expiry verification
(failures caught, returning false); a truthy blacklisted `jti` answers true,
else fall back to the hash of the compact string. -/
def JwtTokenService.is_token_revoked (nowMs : Nat) (revoked : List String)
    (t : Token) : Bool :=
  if ¬ t.sigValid ∨ nowMs < t.payload.nbf then false
  else
    match t.payload.jti with
    | some j =>
      if j ≠ "" && revoked.contains j then true
      else revoked.contains (sha256_hex t.enc)
    | none => revoked.contains (sha256_hex t.enc)

/-- `JwtTokenService.decode_token` at current time `nowMs` against blacklist
`revoked`: empty-token check, signature, required `jti` claim, not-before,
expiry, then the additional checks of the source (non-empty subject,
recognised type, not revoked).  All failures surface as `InvalidTokenError`
messages. -/
def JwtTokenService.decode_token (nowMs : Nat) (revoked : List String)
    (t : Token) : Except String TokenPayload :=
  if t.enc = "" then .error "Token cannot be empty"
  else if ¬ t.sigValid then .error "Invalid token signature"
  else if t.payload.jti.isNone then .error "Token is missing the jti claim"
  else if nowMs < t.payload.nbf then .error "The token is not yet valid"
  else if t.payload.exp ≤ nowMs then .error "Token has expired"
  else if t.payload.sub = "" then .error "Token missing subject"
  else if ¬ (t.payload.typ = "access" ∨ t.payload.typ = "refresh") then
    .error "Invalid token type"
  else if JwtTokenService.is_token_revoked nowMs revoked t then
    .error "Token has been revoked"
  else .ok t.payload

/-! ## Authentication service (src/backend/infrastructure/security/auth_service.py) -/

/-- `AuthenticationService.authenticate_user`: reject empty credentials, look
the user up by normalized username, verify the password, reject inactive
accounts. -/
def AuthenticationService.authenticate_user (users : List User)
    (username password : String) : Option User :=
  if username = "" ∨ password = "" then none
  else
    match UserRepository.get_by_username users (py_strip (py_lower username)) with
    | none => none
    | some user =>
      if ¬ BcryptPasswordHasher.verify_password password user.hashed_password then none
      else if ¬ user.is_active then none
      else some user

/-- Python `str.title()`: start every alphabetic run with an uppercase letter
and lowercase the rest of the run. -/
def py_title (s : String) : String :=
  let step : Bool × String → Char → Bool × String := fun st c =>
    let prevAlpha := st.1
    let acc := st.2
    if c.isAlpha then
      (true, acc.push (if prevAlpha then c.toLower else c.toUpper))
    else
      (false, acc.push c)
  (s.toList.foldl step (false, "")).2

/-- `AuthenticationService.create_user`: input guards, duplicate checks,
hash, construct the entity (normalized username/email, title-cased names,
active), persist.  Returns the stored user and the store after. -/
def AuthenticationService.create_user (users : List User)
    (username password email first_name last_name : String) (is_admin : Bool) :
    Except String (User × List User) :=
  if username = "" ∨ password = "" ∨ email = "" then
    .error "Username, password, and email are required"
  else if first_name = "" ∨ last_name = "" then
    .error "First name and last name are required"
  else
    match UserRepository.get_by_username users (py_strip (py_lower username)) with
    | some _ => .error "Username already exists"
    | none =>
      match UserRepository.get_by_email users (py_strip (py_lower email)) with
      | some _ => .error "Email already registered"
      | none =>
        match BcryptPasswordHasher.hash_password password with
        | .error e => .error e
        | .ok hashed =>
          let user : User :=
            { id := 0
              username := py_strip (py_lower username)
              email := py_strip (py_lower email)
              first_name := py_title (py_strip first_name)
              last_name := py_title (py_strip last_name)
              hashed_password := hashed
              is_admin := is_admin
              is_active := true
              last_login_date := none }
          .ok (UserRepository.create users user)

/-- `AuthenticationService.update_last_login`: set the timestamp if the user
exists, persisting through the user repository. -/
def AuthenticationService.update_last_login (users : List User)
    (user_id : Nat) (nowMs : Nat) : List User :=
  match UserRepository.get_by_id users user_id with
  | some user => UserRepository.update users { user with last_login_date := some nowMs }
  | none => users

/-! ## Auth DTOs (src/backend/application/dtos/auth_dtos.py) -/

/-- `RegisterRequest.validate_username`: non-blank, at least three characters
after trimming, normalized to trimmed lowercase. -/
def RegisterRequest.validate_username (v : String) : Except String String :=
  if py_strip v = "" then .error "Username cannot be empty"
  else if (py_strip v).length < 3 then .error "Username must be at least 3 characters long"
  else .ok (py_lower (py_strip v))

/-- `RegisterRequest.validate_password`: at least eight characters with at
least one uppercase letter, one lowercase letter, and one digit. -/
def RegisterRequest.validate_password (v : String) : Except String String :=
  if v.length < 8 then .error "Password must be at least 8 characters long"
  else if ¬ v.toList.any Char.isUpper then
    .error "Password must contain at least one uppercase letter"
  else if ¬ v.toList.any Char.isLower then
    .error "Password must contain at least one lowercase letter"
  else if ¬ v.toList.any Char.isDigit then
    .error "Password must contain at least one number"
  else .ok v

/-- `RegisterRequest.validate_names`: non-blank, trimmed and title-cased. -/
def RegisterRequest.validate_names (v : String) : Except String String :=
  if py_strip v = "" then .error "Name cannot be empty"
  else .ok (py_title (py_strip v))

/-- Stand-in for pydantic `EmailStr`: a non-empty local part, an `@`, and a
non-empty domain containing a dot. -/
def is_valid_email (v : String) : Bool :=
  match splitOnChar '@' v with
  | [local_part, domain] => local_part ≠ "" && domain.toList.contains '.' && domain ≠ ""
  | _ => false

/-- A validated `RegisterRequest`: the field values after pydantic
validation. -/
structure RegisterRequest where
  username : String
  password : String
  email : String
  first_name : String
  last_name : String
deriving DecidableEq

/-- Construction of `RegisterRequest`, running the pydantic validators in
field declaration order; the first failure wins. -/
def RegisterRequest.mk? (username password email first_name last_name : String) :
    Except String RegisterRequest :=
  match RegisterRequest.validate_username username with
  | .error e => .error e
  | .ok u =>
    match RegisterRequest.validate_password password with
    | .error e => .error e
    | .ok p =>
      if ¬ is_valid_email email then .error "value is not a valid email address"
      else
        match RegisterRequest.validate_names first_name with
        | .error e => .error e
        | .ok f =>
          match RegisterRequest.validate_names last_name with
          | .error e => .error e
          | .ok l => .ok { username := u, password := p, email := email, first_name := f, last_name := l }

/-- `TokenResponse` DTO; `expires_in` is in seconds. -/
structure TokenResponse where
  access_token : Token
  refresh_token : Option Token
  token_type : String
  expires_in : Nat
deriving DecidableEq

/-! ## Use cases (src/backend/application/use_cases) -/

/-- `LoginUseCase.execute`: authenticate, reject inactive accounts, record the
last login, and issue a 30-minute access token plus a refresh token.  Returns
the `TokenResponse` and the user store after the last-login update. -/
def LoginUseCase.execute (users : List User) (nowMs : Nat)
    (username password : String) : Except String (TokenResponse × List User) :=
  match AuthenticationService.authenticate_user users username password with
  | none => .error "Invalid username or password"
  | some user =>
    if ¬ user.is_active then .error "Account is deactivated"
    else
      let users2 := AuthenticationService.update_last_login users user.id nowMs
      let access := JwtTokenService.generate_access_token user.id user.username
        user.is_admin nowMs accessTokenDeltaMs
      let refresh := JwtTokenService.generate_refresh_token user.id user.username nowMs
      .ok ({ access_token := access
             refresh_token := some refresh
             token_type := "bearer"
             expires_in := 30 * 60 }, users2)

/-- `RegisterUseCase.execute`: duplicate-username and duplicate-email checks,
auto-admin for the usernames `admin` and `mario_gonzalez`, then user creation
through the authentication service. -/
def RegisterUseCase.execute (users : List User) (request : RegisterRequest) :
    Except String (User × List User) :=
  match UserRepository.get_by_username users request.username with
  | some _ => .error "Username already exists"
  | none =>
    match UserRepository.get_by_email users request.email with
    | some _ => .error "Email already registered"
    | none =>
      let is_admin := request.username = "admin" ∨ request.username = "mario_gonzalez"
      AuthenticationService.create_user users request.username request.password
        request.email request.first_name request.last_name is_admin

/-- `RefreshTokenUseCase.execute`: decode the presented token (a redundant
revocation re-check follows), parse its subject, require an existing active
user, and issue a fresh 30-minute access token.  Every failure is wrapped as
an invalid-refresh-token error by the surrounding handler. -/
def RefreshTokenUseCase.execute (users : List User) (revoked : List String)
    (nowMs : Nat) (refresh_token : Token) : Except String TokenResponse :=
  match JwtTokenService.decode_token nowMs revoked refresh_token with
  | .error e => .error ("Invalid refresh token: " ++ e)
  | .ok payload =>
    if payload.sub = "" then .error "Invalid refresh token: Invalid token"
    else if JwtTokenService.is_token_revoked nowMs revoked refresh_token then
      .error "Invalid refresh token: Token has been revoked"
    else
      match py_int? payload.sub with
      | none => .error "Invalid refresh token: invalid subject"
      | some uid =>
        match UserRepository.get_by_id users uid with
        | none => .error "Invalid refresh token: User not found or inactive"
        | some user =>
          if ¬ user.is_active then
            .error "Invalid refresh token: User not found or inactive"
          else
            .ok { access_token := JwtTokenService.generate_access_token user.id
                    user.username user.is_admin nowMs accessTokenDeltaMs
                  refresh_token := none
                  token_type := "bearer"
                  expires_in := 30 * 60 }

/-- Result of `DeleteDashboardUseCase.execute`: the repository answer plus the
dashboard store and filesystem after. -/
structure DeleteDashboardResult where
  deleted : Bool
  dashboards : List Dashboard
  files : List (List String)
deriving DecidableEq

/-- `DeleteDashboardUseCase.execute`: missing user or dashboard raise
not-found errors; a non-administrator requester is refused outright (the
entity-level creator permission is never consulted); otherwise the preview
file (when truthy) and the record are deleted. -/
def DeleteDashboardUseCase.execute (users : List User) (base : List String)
    (fs : List (List String)) (ds : List Dashboard)
    (dashboard_id current_user_id : Nat) : Except String DeleteDashboardResult :=
  match UserRepository.get_by_id users current_user_id with
  | none => .error "User not found"
  | some current_user =>
    match DashboardRepository.get_by_id ds dashboard_id with
    | none => .error "Dashboard not found"
    | some dashboard =>
      if ¬ current_user.is_admin then
        .error "Only administrators can delete dashboards"
      else
        let fs2 :=
          match dashboard.url_imagen_preview with
          | some p =>
            if p ≠ "" then (LocalFileStorageService.delete_file base fs p).2 else fs
          | none => fs
        let res := DashboardRepository.delete ds dashboard_id
        .ok { deleted := res.1, dashboards := res.2, files := fs2 }

/-- `FeaturedDashboardResponse` DTO. -/
structure FeaturedDashboardResponse where
  id : Option Nat
  titulo : String
  descripcion : String
  categoria : String
deriving DecidableEq

/-- The fixed priority category list of `GetFeaturedDashboardsUseCase`. -/
def priority_categories : List String :=
  ["Operations", "Finance", "Workshop", "Human Resources", "Accounting"]

/-- Projection of a dashboard onto its featured response. -/
def toFeaturedResponse (d : Dashboard) : FeaturedDashboardResponse :=
  { id := d.id
    titulo := d.titulo
    descripcion := d.descripcion.getD ""
    categoria := d.categoria }

/-- `GetFeaturedDashboardsUseCase.execute` over the dashboards currently in
the store. -/
def GetFeaturedDashboardsUseCase.execute (data : List Dashboard) (limit : Nat) :
    List FeaturedDashboardResponse :=
  (DashboardRepository.get_featured_by_categories data priority_categories limit).map
    toFeaturedResponse

/-! ## Concrete demonstration data for the witnesses -/

/-- A non-administrator user, creator of `demoDashboard`. -/
def demoUser : User :=
  { id := 7
    username := "creator"
    email := "creator@example.com"
    first_name := "Ann"
    last_name := "Lee"
    hashed_password := bcrypt_hashpw "Secure1Pass"
    is_admin := false
    is_active := true
    last_login_date := none }

/-- A dashboard created by `demoUser`. -/
def demoDashboard : Dashboard :=
  { id := some 3
    titulo := "Sales"
    url_acceso := "https://bi.example.com/sales"
    categoria := "Operations"
    subcategoria := none
    descripcion := none
    url_imagen_preview := none
    created_by := 7 }

/-! ## Shared helper lemmas -/

/-- `Nat.toDigitsCore` never discards its accumulator. -/
lemma toDigitsCore_cons_ne_nil (b f n : Nat) (c : Char) (l : List Char) :
    Nat.toDigitsCore b f n (c :: l) ≠ [] := by
  induction f generalizing n c l with
  | zero => simp [Nat.toDigitsCore]
  | succ f ih =>
    unfold Nat.toDigitsCore
    simp only []
    by_cases h : n / b = 0
    · simp [h]
    · simp only [if_neg h]
      exact ih _ _ _

/-- The decimal rendering of a natural number is never the empty string. -/
lemma toString_nat_ne_empty (n : Nat) : toString n ≠ "" := by
  show Nat.repr n ≠ ""
  unfold Nat.repr
  intro h
  have hd : (Nat.toDigits 10 n).asString.data = ([] : List Char) := by
    rw [h]
  have hnil : Nat.toDigits 10 n = [] := hd
  revert hnil
  unfold Nat.toDigits Nat.toDigitsCore
  simp only []
  by_cases h10 : n / 10 = 0
  · simp [h10]
  · simp only [if_neg h10]
    exact toDigitsCore_cons_ne_nil _ _ _ _ _

/-- A string with a non-empty left factor is non-empty. -/
lemma append_ne_empty_left (s t : String) (h : s.length ≠ 0) : s ++ t ≠ "" := by
  intro he
  have hl := congrArg String.length he
  rw [String.length_append] at hl
  have : ("" : String).length = 0 := rfl
  omega

/-- `revoke_token` on a decodable token with a truthy `jti` pushes that `jti`
onto the blacklist. -/
lemma revoke_adds_jti (nowMs : Nat) (revoked : List String) (t : Token)
    (j : String) (hsig : t.sigValid = true) (hnbf : t.payload.nbf ≤ nowMs)
    (hjti : t.payload.jti = some j) (hj : j ≠ "") :
    (JwtTokenService.revoke_token nowMs revoked t).2 = j :: revoked := by
  unfold JwtTokenService.revoke_token
  rw [if_neg (by rw [hsig]; simp; omega), hjti]
  simp [hj]

/-- A decodable token whose truthy `jti` is blacklisted is reported revoked. -/
lemma is_token_revoked_of_mem (nowMs : Nat) (revoked : List String) (t : Token)
    (j : String) (hsig : t.sigValid = true) (hnbf : t.payload.nbf ≤ nowMs)
    (hjti : t.payload.jti = some j) (hj : j ≠ "") (hmem : j ∈ revoked) :
    JwtTokenService.is_token_revoked nowMs revoked t = true := by
  unfold JwtTokenService.is_token_revoked
  rw [if_neg (by rw [hsig]; simp; omega), hjti]
  simp [hj]
  exact Or.inl hmem

/-- A well-formed, in-window token that the blacklist reports revoked is
refused by `decode_token` with the revocation message. -/
lemma decode_revoked_error (nowMs : Nat) (revoked : List String) (t : Token)
    (henc : ¬ t.enc = "") (hsig : t.sigValid = true)
    (hjti : t.payload.jti.isNone = false)
    (hnbf : t.payload.nbf ≤ nowMs) (hexp : nowMs < t.payload.exp)
    (hsub : ¬ t.payload.sub = "")
    (htyp : t.payload.typ = "access" ∨ t.payload.typ = "refresh")
    (hrev : JwtTokenService.is_token_revoked nowMs revoked t = true) :
    JwtTokenService.decode_token nowMs revoked t =
      .error "Token has been revoked" := by
  unfold JwtTokenService.decode_token
  rw [if_neg henc, if_neg (by rw [hsig]; simp), if_neg (by rw [hjti]; simp),
    if_neg (by omega), if_neg (by omega), if_neg hsub,
    if_neg (not_not_intro htyp), if_pos hrev]

/-- The compact serialization produced by the service is never empty. -/
lemma jwt_encode_ne_empty (p : TokenPayload) : jwt_encode p ≠ "" := by
  unfold jwt_encode
  apply append_ne_empty_left
  simp only [String.length_append]
  have h1 : ("jwt." : String).length = 4 := rfl
  omega

/-- Against an empty blacklist no token is reported revoked. -/
lemma is_token_revoked_nil (nowMs : Nat) (t : Token) :
    JwtTokenService.is_token_revoked nowMs [] t = false := by
  unfold JwtTokenService.is_token_revoked
  split
  · rfl
  · cases hj : t.payload.jti with
    | none => simp
    | some j => simp

/-- A well-formed token inside its validity window that the blacklist does
not report revoked decodes to its payload. -/
lemma decode_token_ok (nowMs : Nat) (revoked : List String) (t : Token)
    (henc : ¬ t.enc = "") (hsig : t.sigValid = true)
    (hjti : t.payload.jti.isNone = false)
    (hnbf : t.payload.nbf ≤ nowMs) (hexp : nowMs < t.payload.exp)
    (hsub : ¬ t.payload.sub = "")
    (htyp : t.payload.typ = "access" ∨ t.payload.typ = "refresh")
    (hrev : JwtTokenService.is_token_revoked nowMs revoked t = false) :
    JwtTokenService.decode_token nowMs revoked t = .ok t.payload := by
  unfold JwtTokenService.decode_token
  rw [if_neg henc, if_neg (by rw [hsig]; simp), if_neg (by rw [hjti]; simp),
    if_neg (by omega), if_neg (by omega), if_neg hsub,
    if_neg (not_not_intro htyp), if_neg (by rw [hrev]; simp)]

/-- Successful authentication only ever returns an active user. -/
lemma authenticate_some_active (users : List User) (username password : String)
    (u : User)
    (h : AuthenticationService.authenticate_user users username password = some u) :
    u.is_active = true := by
  unfold AuthenticationService.authenticate_user at h
  split at h
  · exact absurd h (by simp)
  · split at h
    · exact absurd h (by simp)
    · split at h
      · exact absurd h (by simp)
      · split at h
        · exact absurd h (by simp)
        · rename_i user _ _ hact
          obtain rfl : user = u := Option.some_injective _ h
          simpa using hact

/-! ## Claims -/

/-- C1: when the requester exists and is not an administrator, the delete
use case fails with the Forbidden-kind error even if the requester created
the dashboard, while the entity predicate `can_be_deleted_by` grants
deletion to that creator (and to any administrator). -/
theorem claim1_delete_dashboard_admin_only_vs_entity
    (users : List User) (base : List String) (fs : List (List String))
    (ds : List Dashboard) (did uid : Nat) (u : User) (d : Dashboard)
    (hu : UserRepository.get_by_id users uid = some u)
    (hadmin : u.is_admin = false)
    (hd : DashboardRepository.get_by_id ds did = some d)
    (hcreator : d.created_by = uid) :
    DeleteDashboardUseCase.execute users base fs ds did uid =
      .error "Only administrators can delete dashboards" ∧
    d.can_be_deleted_by uid u.is_admin = true ∧
    d.can_be_deleted_by uid true = true := by
  refine ⟨?_, ?_, ?_⟩
  · unfold DeleteDashboardUseCase.execute
    rw [hu, hd]
    simp [hadmin]
  · simp [Dashboard.can_be_deleted_by, hadmin, hcreator]
  · simp [Dashboard.can_be_deleted_by]

/-- Witness for C1: the creator of `demoDashboard` is refused by the use
case while the entity predicate grants them deletion. -/
theorem claim1_witness :
    DeleteDashboardUseCase.execute [demoUser] ["app", "static"] [] [demoDashboard] 3 7 =
      .error "Only administrators can delete dashboards" ∧
    demoDashboard.can_be_deleted_by 7 demoUser.is_admin = true ∧
    demoDashboard.can_be_deleted_by 7 true = true :=
  claim1_delete_dashboard_admin_only_vs_entity [demoUser] ["app", "static"] []
    [demoDashboard] 3 7 demoUser demoDashboard (by decide) (by decide) (by decide)
    (by decide)

/-- C2: the dashboard and employee repository update operations are
passthroughs — the entity comes back unchanged and the store is untouched. -/
theorem claim2_update_passthrough (ds : List Dashboard) (d : Dashboard)
    (es : List Employee) (e : Employee) :
    DashboardRepository.update ds d = (d, ds) ∧
    EmployeeRepository.update es e = (e, es) :=
  ⟨rfl, rfl⟩

/-- C7: evaluation of the delete-file guard at the failing input.  With base
directory `/app/static` and an existing file `/app/staticx/f.png`, the input
path `../staticx/f.png` resolves outside the base directory (the base is not
a path prefix of the resolution), yet `delete_file` answers `true` and the
file is gone: the string-level `startswith` comparison accepts the sibling
directory `staticx` because its name extends the string `/app/static`. -/
theorem claim7_startswith_guard_bypass :
    LocalFileStorageService.delete_file ["app", "static"]
      [["app", "staticx", "f.png"]] "../staticx/f.png" = (true, []) ∧
    resolvePath (["app", "static"] ++ splitPath "../staticx/f.png") =
      ["app", "staticx", "f.png"] ∧
    (["app", "static"].isPrefixOf ["app", "staticx", "f.png"]) = false := by
  refine ⟨?_, ?_, ?_⟩ <;> decide

/-- C3: a service-issued token (valid signature, non-empty compact form and
subject, recognised type, a `jti` claim) that is inside its validity window
is nonetheless rejected by `decode_token` once `revoke_token` has been run on
it: revocation wins over a valid signature and an unexpired lifetime. -/
theorem claim3_revoked_token_rejected
    (revoked : List String) (t : Token) (nowR nowD : Nat) (j : String)
    (hsig : t.sigValid = true) (henc : ¬ t.enc = "")
    (hjti : t.payload.jti = some j) (hj : j ≠ "")
    (hsub : ¬ t.payload.sub = "")
    (htyp : t.payload.typ = "access" ∨ t.payload.typ = "refresh")
    (hnbfR : t.payload.nbf ≤ nowR) (hnbfD : t.payload.nbf ≤ nowD)
    (hexp : nowD < t.payload.exp) :
    JwtTokenService.decode_token nowD
      ((JwtTokenService.revoke_token nowR revoked t).2) t =
      .error "Token has been revoked" := by
  rw [revoke_adds_jti nowR revoked t j hsig hnbfR hjti hj]
  exact decode_revoked_error nowD (j :: revoked) t henc hsig
    (by rw [hjti]; rfl) hnbfD hexp hsub htyp
    (is_token_revoked_of_mem nowD (j :: revoked) t j hsig hnbfD hjti hj
      (List.mem_cons_self j revoked))

/-- Witness for C3: a concrete access token issued at 1700000500000 ms for
user 5 is revoked and then refused one hundred seconds later, though its
30-minute expiry is far from reached. -/
theorem claim3_witness :
    JwtTokenService.decode_token 1700000600000
      ((JwtTokenService.revoke_token 1700000600000 []
        (JwtTokenService.generate_access_token 5 "u" false 1700000500000 1800000)).2)
      (JwtTokenService.generate_access_token 5 "u" false 1700000500000 1800000) =
      .error "Token has been revoked" :=
  claim3_revoked_token_rejected []
    (JwtTokenService.generate_access_token 5 "u" false 1700000500000 1800000)
    1700000600000 1700000600000 "access_5_1700000500"
    (by decide) (by decide) (by decide) (by decide) (by decide)
    (Or.inl (by decide)) (by decide) (by decide) (by decide)

/-- C10: access-token identifiers are `access_{user_id}_{issued_at_seconds}`
with the timestamp truncated to whole seconds, so two tokens generated for
the same user at distinct instants of the same second share one `jti`;
revoking the first makes `is_token_revoked` report the second revoked and
`decode_token` reject it. -/
theorem claim10_jti_second_collision
    (uid : Nat) (un1 un2 : String) (adm1 adm2 : Bool)
    (t1Ms t2Ms d1 d2 nowR nowD : Nat) (revoked : List String)
    (_hne : t1Ms ≠ t2Ms) (hsec : t1Ms / 1000 = t2Ms / 1000)
    (hnbfR : t1Ms ≤ nowR) (hnbfD : t2Ms ≤ nowD) (hexp : nowD < t2Ms + d2) :
    (JwtTokenService.generate_access_token uid un1 adm1 t1Ms d1).payload.jti =
      some ("access_" ++ toString uid ++ "_" ++ toString (t1Ms / 1000)) ∧
    (JwtTokenService.generate_access_token uid un1 adm1 t1Ms d1).payload.jti =
      (JwtTokenService.generate_access_token uid un2 adm2 t2Ms d2).payload.jti ∧
    JwtTokenService.is_token_revoked nowD
      ((JwtTokenService.revoke_token nowR revoked
        (JwtTokenService.generate_access_token uid un1 adm1 t1Ms d1)).2)
      (JwtTokenService.generate_access_token uid un2 adm2 t2Ms d2) = true ∧
    JwtTokenService.decode_token nowD
      ((JwtTokenService.revoke_token nowR revoked
        (JwtTokenService.generate_access_token uid un1 adm1 t1Ms d1)).2)
      (JwtTokenService.generate_access_token uid un2 adm2 t2Ms d2) =
      .error "Token has been revoked" := by
  have hj : ("access_" ++ toString uid ++ "_" ++ toString (t1Ms / 1000)) ≠ "" := by
    apply append_ne_empty_left
    rw [String.length_append, String.length_append]
    have h1 : ("access_" : String).length = 7 := rfl
    have h2 : ("_" : String).length = 1 := rfl
    omega
  have hrev : (JwtTokenService.revoke_token nowR revoked
      (JwtTokenService.generate_access_token uid un1 adm1 t1Ms d1)).2 =
      ("access_" ++ toString uid ++ "_" ++ toString (t1Ms / 1000)) :: revoked :=
    revoke_adds_jti nowR revoked _ _ rfl hnbfR rfl hj
  have hjti2 : (JwtTokenService.generate_access_token uid un2 adm2 t2Ms d2).payload.jti =
      some ("access_" ++ toString uid ++ "_" ++ toString (t1Ms / 1000)) := by
    rw [hsec]; rfl
  refine ⟨rfl, by rw [hjti2]; rfl, ?_, ?_⟩
  · rw [hrev]
    exact is_token_revoked_of_mem nowD _ _ _ rfl hnbfD hjti2 hj
      (List.mem_cons_self _ _)
  · rw [hrev]
    refine decode_revoked_error nowD _ _ ?_ rfl (by rw [hjti2]; rfl) hnbfD hexp
      ?_ (Or.inl rfl) ?_
    · show ¬ jwt_encode _ = ""
      apply append_ne_empty_left
      simp only [String.length_append]
      have h1 : ("jwt." : String).length = 4 := rfl
      omega
    · show ¬ toString uid = ""
      exact toString_nat_ne_empty uid
    · exact is_token_revoked_of_mem nowD _ _ _ rfl hnbfD hjti2 hj
        (List.mem_cons_self _ _)

/-- Witness for C10: two tokens for user 5 issued 400 ms apart inside the
same second share `jti` `access_5_1700000500`; revoking the first gets the
second refused. -/
theorem claim10_witness :
    (JwtTokenService.generate_access_token 5 "u" false 1700000500100 1800000).payload.jti =
      some ("access_" ++ toString 5 ++ "_" ++ toString (1700000500100 / 1000)) ∧
    (JwtTokenService.generate_access_token 5 "u" false 1700000500100 1800000).payload.jti =
      (JwtTokenService.generate_access_token 5 "v" true 1700000500500 900000).payload.jti ∧
    JwtTokenService.is_token_revoked 1700000600000
      ((JwtTokenService.revoke_token 1700000500100 []
        (JwtTokenService.generate_access_token 5 "u" false 1700000500100 1800000)).2)
      (JwtTokenService.generate_access_token 5 "v" true 1700000500500 900000) = true ∧
    JwtTokenService.decode_token 1700000600000
      ((JwtTokenService.revoke_token 1700000500100 []
        (JwtTokenService.generate_access_token 5 "u" false 1700000500100 1800000)).2)
      (JwtTokenService.generate_access_token 5 "v" true 1700000500500 900000) =
      .error "Token has been revoked" :=
  claim10_jti_second_collision 5 "u" "v" false true
    1700000500100 1700000500500 1800000 900000 1700000500100 1700000600000 []
    (by decide) (by decide) (by decide) (by decide) (by decide)

/-- C4: when authentication succeeds, `LoginUseCase.execute` answers a
`TokenResponse` with token type `bearer` and `expires_in` 1800 seconds whose
access token carries `sub = str(user id)` and a lifetime of exactly 1800
seconds (`exp - iat`, in milliseconds here), and the token decodes
successfully; for an account found with a matching password but deactivated,
the same use case fails. -/
theorem claim4_login_active_shape_inactive_fails :
    (∀ (users : List User) (nowMs : Nat) (username password : String) (u : User),
      AuthenticationService.authenticate_user users username password = some u →
      ∃ r users2,
        LoginUseCase.execute users nowMs username password = .ok (r, users2) ∧
        r.token_type = "bearer" ∧
        r.expires_in = 1800 ∧
        r.access_token.payload.sub = toString u.id ∧
        r.access_token.payload.exp - r.access_token.payload.iat = 1800 * 1000 ∧
        JwtTokenService.decode_token nowMs [] r.access_token =
          .ok r.access_token.payload) ∧
    (∀ (users : List User) (nowMs : Nat) (username password : String) (u : User),
      UserRepository.get_by_username users (py_strip (py_lower username)) = some u →
      BcryptPasswordHasher.verify_password password u.hashed_password = true →
      u.is_active = false →
      LoginUseCase.execute users nowMs username password =
        .error "Invalid username or password") := by
  constructor
  · intro users nowMs username password u hauth
    have hact := authenticate_some_active users username password u hauth
    unfold LoginUseCase.execute
    rw [hauth]
    simp only []
    rw [if_neg (by rw [hact]; simp)]
    refine ⟨_, _, rfl, rfl, rfl, rfl, ?_, ?_⟩
    · show (nowMs + accessTokenDeltaMs) - nowMs = 1800 * 1000
      unfold accessTokenDeltaMs
      omega
    · refine decode_token_ok nowMs [] _ (jwt_encode_ne_empty _) rfl rfl
        (Nat.le_refl nowMs) ?_ (toString_nat_ne_empty u.id) (Or.inl rfl)
        (is_token_revoked_nil nowMs _)
      show nowMs < nowMs + accessTokenDeltaMs
      unfold accessTokenDeltaMs
      omega
  · intro users nowMs username password u hlookup hverify hactive
    unfold LoginUseCase.execute
    have hnone : AuthenticationService.authenticate_user users username password = none := by
      unfold AuthenticationService.authenticate_user
      split
      · rfl
      · rw [hlookup]
        simp [hverify, hactive]
    rw [hnone]

/-- A deactivated user holding correct credentials, for the C4 witness. -/
def demoInactiveUser : User :=
  { id := 8
    username := "bob"
    email := "bob@example.com"
    first_name := "Bob"
    last_name := "Stone"
    hashed_password := bcrypt_hashpw "Secure1Pass"
    is_admin := false
    is_active := false
    last_login_date := none }

/-- Witness for C4: logging in as the active `demoUser` (username entered
with stray case and spacing) yields the bearer/1800 token shape; the same
password on the deactivated `demoInactiveUser` account is refused. -/
theorem claim4_witness :
    (∃ r users2,
      LoginUseCase.execute [demoUser] 1000 "Creator " "Secure1Pass" = .ok (r, users2) ∧
      r.token_type = "bearer" ∧
      r.expires_in = 1800 ∧
      r.access_token.payload.sub = toString demoUser.id ∧
      r.access_token.payload.exp - r.access_token.payload.iat = 1800 * 1000 ∧
      JwtTokenService.decode_token 1000 [] r.access_token =
        .ok r.access_token.payload) ∧
    LoginUseCase.execute [demoInactiveUser] 1000 "bob" "Secure1Pass" =
      .error "Invalid username or password" :=
  ⟨claim4_login_active_shape_inactive_fails.1 [demoUser] 1000 "Creator " "Secure1Pass"
      demoUser (by decide),
   claim4_login_active_shape_inactive_fails.2 [demoInactiveUser] 1000 "bob" "Secure1Pass"
      demoInactiveUser (by decide) (by decide) (by decide)⟩

/-- A validated registration request carries the trimmed, lowercased form of
the requested username. -/
lemma mk?_ok_username (raw pw em fn ln : String) (req : RegisterRequest)
    (h : RegisterRequest.mk? raw pw em fn ln = .ok req) :
    req.username = py_lower (py_strip raw) := by
  unfold RegisterRequest.mk? at h
  split at h
  · exact absurd h (by simp)
  · rename_i u hu
    split at h
    · exact absurd h (by simp)
    · split at h
      · exact absurd h (by simp)
      · split at h
        · exact absurd h (by simp)
        · split at h
          · exact absurd h (by simp)
          · injection h with h2
            have hru : req.username = u := by rw [← h2]
            rw [hru]
            unfold RegisterRequest.validate_username at hu
            split at hu
            · exact absurd hu (by simp)
            · split at hu
              · exact absurd hu (by simp)
              · injection hu with h3
                exact h3.symm

/-- `create_user` stores exactly the admin flag it is given. -/
lemma create_user_is_admin (users : List User) (un pw em fn ln : String)
    (adm : Bool) (u : User) (users2 : List User)
    (h : AuthenticationService.create_user users un pw em fn ln adm = .ok (u, users2)) :
    u.is_admin = adm := by
  unfold AuthenticationService.create_user at h
  split at h
  · exact absurd h (by simp)
  · split at h
    · exact absurd h (by simp)
    · split at h
      · exact absurd h (by simp)
      · split at h
        · exact absurd h (by simp)
        · split at h
          · exact absurd h (by simp)
          · injection h with h2
            have h3 := congrArg Prod.fst h2
            simp only [] at h3
            rw [← h3]
            rfl

/-- C5: an account created through registration is an administrator exactly
when the trimmed, lowercased requested username is `admin` or
`mario_gonzalez`. -/
theorem claim5_register_admin_exactly_for_reserved
    (users : List User) (raw pw em fn ln : String) (req : RegisterRequest)
    (u : User) (users2 : List User)
    (hreq : RegisterRequest.mk? raw pw em fn ln = .ok req)
    (hexec : RegisterUseCase.execute users req = .ok (u, users2)) :
    u.is_admin = true ↔
      (py_lower (py_strip raw) = "admin" ∨
       py_lower (py_strip raw) = "mario_gonzalez") := by
  have huser := mk?_ok_username raw pw em fn ln req hreq
  unfold RegisterUseCase.execute at hexec
  split at hexec
  · exact absurd hexec (by simp)
  · split at hexec
    · exact absurd hexec (by simp)
    · have hadm := create_user_is_admin _ _ _ _ _ _ _ _ _ hexec
      rw [hadm, huser] at *
      simp

/-- Witness for C5: registering the never-seen username `Mario_Gonzalez `
(trimming and lowercasing to `mario_gonzalez`) produces an administrator
account. -/
theorem claim5_witness :
    ({ id := 1
       username := "mario_gonzalez"
       email := "m@g.com"
       first_name := "Mario"
       last_name := "Gonzalez"
       hashed_password := bcrypt_hashpw "Secure1Pass"
       is_admin := true
       is_active := true
       last_login_date := none } : User).is_admin = true ↔
      (py_lower (py_strip "Mario_Gonzalez ") = "admin" ∨
       py_lower (py_strip "Mario_Gonzalez ") = "mario_gonzalez") :=
  claim5_register_admin_exactly_for_reserved [] "Mario_Gonzalez " "Secure1Pass"
    "m@g.com" "Mario" "Gonzalez"
    { username := "mario_gonzalez"
      password := "Secure1Pass"
      email := "m@g.com"
      first_name := "Mario"
      last_name := "Gonzalez" }
    { id := 1
      username := "mario_gonzalez"
      email := "m@g.com"
      first_name := "Mario"
      last_name := "Gonzalez"
      hashed_password := bcrypt_hashpw "Secure1Pass"
      is_admin := true
      is_active := true
      last_login_date := none }
    [{ id := 1
       username := "mario_gonzalez"
       email := "m@g.com"
       first_name := "Mario"
       last_name := "Gonzalez"
       hashed_password := bcrypt_hashpw "Secure1Pass"
       is_admin := true
       is_active := true
       last_login_date := none }]
    (by decide) (by decide)

/-- A password accepted by the registration validator satisfies all four
policy conditions. -/
lemma mk?_ok_password_conditions (un pw em fn ln : String) (req : RegisterRequest)
    (h : RegisterRequest.mk? un pw em fn ln = .ok req) :
    8 ≤ pw.length ∧ pw.toList.any Char.isUpper = true ∧
    pw.toList.any Char.isLower = true ∧ pw.toList.any Char.isDigit = true := by
  unfold RegisterRequest.mk? at h
  split at h
  · exact absurd h (by simp)
  · split at h
    · exact absurd h (by simp)
    · rename_i p hp
      unfold RegisterRequest.validate_password at hp
      split at hp
      · exact absurd hp (by simp)
      · split at hp
        · exact absurd hp (by simp)
        · split at hp
          · exact absurd hp (by simp)
          · split at hp
            · exact absurd hp (by simp)
            · rename_i h1 h2 h3 h4
              refine ⟨by omega, ?_, ?_, ?_⟩
              · simpa using h2
              · simpa using h3
              · simpa using h4

/-- C8: `RegisterRequest` construction succeeds only for passwords of length
at least 8 containing an uppercase letter, a lowercase letter and a digit;
any password violating one of the conditions makes construction fail, in
particular `short1` (too short) and `alllowercase1` (no uppercase). -/
theorem claim8_register_password_policy :
    (∀ (un pw em fn ln : String) (req : RegisterRequest),
      RegisterRequest.mk? un pw em fn ln = .ok req →
      8 ≤ pw.length ∧ pw.toList.any Char.isUpper = true ∧
      pw.toList.any Char.isLower = true ∧ pw.toList.any Char.isDigit = true) ∧
    (∀ (un pw em fn ln : String),
      ¬ (8 ≤ pw.length ∧ pw.toList.any Char.isUpper = true ∧
         pw.toList.any Char.isLower = true ∧ pw.toList.any Char.isDigit = true) →
      ∃ msg, RegisterRequest.mk? un pw em fn ln = .error msg) ∧
    RegisterRequest.mk? "validuser" "short1" "a@b.com" "Ann" "Lee" =
      .error "Password must be at least 8 characters long" ∧
    RegisterRequest.mk? "validuser" "alllowercase1" "a@b.com" "Ann" "Lee" =
      .error "Password must contain at least one uppercase letter" := by
  refine ⟨fun un pw em fn ln req h => mk?_ok_password_conditions un pw em fn ln req h,
    ?_, by decide, by decide⟩
  intro un pw em fn ln hcond
  cases hmk : RegisterRequest.mk? un pw em fn ln with
  | error e => exact ⟨e, rfl⟩
  | ok req => exact absurd (mk?_ok_password_conditions un pw em fn ln req hmk) hcond

/-- Witness for C8: instantiating the quantified parts at the compliant
password `Secure1Pass` and the non-compliant password `nodigits` and
checking the two fixed examples. -/
theorem claim8_witness :
    (8 ≤ ("Secure1Pass" : String).length ∧
      ("Secure1Pass" : String).toList.any Char.isUpper = true ∧
      ("Secure1Pass" : String).toList.any Char.isLower = true ∧
      ("Secure1Pass" : String).toList.any Char.isDigit = true) ∧
    (∃ msg, RegisterRequest.mk? "validuser" "NoDigitsHere" "a@b.com" "Ann" "Lee" =
      .error msg) := by
  constructor
  · exact claim8_register_password_policy.1 "validuser" "Secure1Pass" "a@b.com"
      "Ann" "Lee"
      { username := "validuser", password := "Secure1Pass", email := "a@b.com",
        first_name := "Ann", last_name := "Lee" } (by decide)
  · exact claim8_register_password_policy.2.1 "validuser" "NoDigitsHere" "a@b.com"
      "Ann" "Lee" (by decide)

/-- C9: `RefreshTokenUseCase.execute` never inspects the token type claim —
a valid, unexpired, unrevoked ACCESS token whose subject is an existing
active user is accepted just like a refresh token, and a fresh access token
is issued for that user. -/
theorem claim9_refresh_accepts_access_token
    (users : List User) (revoked : List String) (nowMs uid : Nat)
    (t : Token) (u : User)
    (henc : ¬ t.enc = "") (hsig : t.sigValid = true)
    (hjti : t.payload.jti.isNone = false)
    (hnbf : t.payload.nbf ≤ nowMs) (hexp : nowMs < t.payload.exp)
    (htyp : t.payload.typ = "access")
    (hrev : JwtTokenService.is_token_revoked nowMs revoked t = false)
    (hsubnz : ¬ t.payload.sub = "")
    (hsub : py_int? t.payload.sub = some uid)
    (huser : UserRepository.get_by_id users uid = some u)
    (hactive : u.is_active = true) :
    RefreshTokenUseCase.execute users revoked nowMs t =
      .ok { access_token := JwtTokenService.generate_access_token u.id u.username
              u.is_admin nowMs accessTokenDeltaMs
            refresh_token := none
            token_type := "bearer"
            expires_in := 30 * 60 } ∧
    (JwtTokenService.generate_access_token u.id u.username u.is_admin nowMs
      accessTokenDeltaMs).payload.typ = "access" := by
  refine ⟨?_, rfl⟩
  unfold RefreshTokenUseCase.execute
  rw [decode_token_ok nowMs revoked t henc hsig hjti hnbf hexp hsubnz
    (Or.inl htyp) hrev]
  simp only []
  rw [if_neg hsubnz, if_neg (by rw [hrev]; simp), hsub]
  simp only []
  rw [huser]
  simp only []
  rw [if_neg (by rw [hactive]; simp)]

/-- Witness for C9: a concrete access token for user 7 (the non-admin
`demoUser`) issued at 1000000 ms is presented to the refresh use case at
1500000 ms and is accepted, yielding a fresh access token. -/
theorem claim9_witness :
    RefreshTokenUseCase.execute [demoUser] [] 1500000
      (JwtTokenService.generate_access_token 7 "creator" false 1000000 1800000) =
      .ok { access_token := JwtTokenService.generate_access_token demoUser.id
              demoUser.username demoUser.is_admin 1500000 accessTokenDeltaMs
            refresh_token := none
            token_type := "bearer"
            expires_in := 30 * 60 } ∧
    (JwtTokenService.generate_access_token demoUser.id demoUser.username
      demoUser.is_admin 1500000 accessTokenDeltaMs).payload.typ = "access" :=
  claim9_refresh_accepts_access_token [demoUser] [] 1500000 7
    (JwtTokenService.generate_access_token 7 "creator" false 1000000 1800000)
    demoUser (by decide) (by decide) (by decide) (by decide) (by decide)
    (by decide) (by decide) (by decide) (by decide) (by decide) (by decide)

/-- Written from the specification sentence for featured dashboards: per
priority category in order, the first dashboard whose category matches
case-insensitively, the whole list truncated to `limit`.  Used as the
comparison point for the loop implementation. -/
def featuredSpec (data : List Dashboard) (cats : List String) (limit : Nat) :
    List Dashboard :=
  (cats.filterMap
    (fun c => data.find? (fun d => py_lower d.categoria == py_lower c))).take limit

/-- While the featured list is strictly below the limit, the inner scan is
plain first-match search. -/
lemma featuredInner_eq_find (limit flen : Nat) (data : List Dashboard)
    (c : String) (h : flen < limit) :
    featuredInner limit flen data c =
      data.find? (fun d => py_lower d.categoria == py_lower c) := by
  induction data with
  | nil => rfl
  | cons d rest ih =>
    unfold featuredInner
    by_cases hm : (py_lower d.categoria == py_lower c) = true
    · rw [if_pos hm,
        @List.find?_cons_of_pos _ (fun x => py_lower x.categoria == py_lower c) d rest hm]
    · rw [if_neg hm, if_neg (by omega),
        @List.find?_cons_of_neg _ (fun x => py_lower x.categoria == py_lower c) d rest
          (by simpa using hm), ih]

/-- Loop characterization: starting strictly below the limit, the outer loop
appends the per-category first matches in order, truncated to the remaining
capacity. -/
lemma featuredOuter_eq_spec (data : List Dashboard) (limit : Nat)
    (cats : List String) (featured : List Dashboard)
    (h : featured.length < limit) :
    featuredOuter data limit featured cats =
      featured ++ (cats.filterMap
        (fun c => data.find? (fun d => py_lower d.categoria == py_lower c))).take
        (limit - featured.length) := by
  induction cats generalizing featured with
  | nil => simp [featuredOuter]
  | cons c cs ih =>
    unfold featuredOuter
    rw [featuredInner_eq_find _ _ _ _ h]
    cases hf : data.find? (fun d => py_lower d.categoria == py_lower c) with
    | none =>
      simp only []
      rw [if_neg (by omega), ih featured h,
        @List.filterMap_cons_none _ _
          (fun c => List.find? (fun d => py_lower d.categoria == py_lower c) data)
          c cs hf]
    | some d =>
      simp only []
      rw [@List.filterMap_cons_some _ _
        (fun c => List.find? (fun d => py_lower d.categoria == py_lower c) data)
        c cs d hf]
      by_cases hl : limit ≤ (featured ++ [d]).length
      · rw [if_pos hl]
        have hlen : limit - featured.length = 0 + 1 := by
          simp only [List.length_append, List.length_cons, List.length_nil] at hl
          omega
        rw [hlen, List.take_succ_cons, List.take_zero]
      · rw [if_neg hl, ih (featured ++ [d])
          (by simp only [List.length_append, List.length_cons, List.length_nil] at hl ⊢; omega)]
        have hlen : limit - featured.length = (limit - (featured ++ [d]).length) + 1 := by
          simp only [List.length_append, List.length_cons, List.length_nil] at hl ⊢
          omega
        rw [hlen, List.take_succ_cons, List.append_assoc]
        rfl

/-- C6 counterexample: with a single dashboard in the priority category
`Operations` and `limit = 0`, the use case returns one dashboard — more than
`limit` — because the limit is only consulted after a category match has
already been appended. -/
theorem claim6_counterexample :
    (GetFeaturedDashboardsUseCase.execute [demoDashboard] 0).length = 1 ∧
    ¬ ((GetFeaturedDashboardsUseCase.execute [demoDashboard] 0).length ≤ 0) := by
  exact ⟨by decide, by decide⟩

/-- C6 (amended): for every positive limit the featured selection equals the
specification-shaped list — per priority category in order, the first
case-insensitive match, truncated to `limit` — and consequently contains at
most `limit` dashboards, all from priority-list categories.  (At `limit = 0`
the implementation can still return one dashboard, as the counterexample
shows.) -/
theorem claim6_featured_amended (data : List Dashboard) (limit : Nat)
    (h : 1 ≤ limit) :
    DashboardRepository.get_featured_by_categories data priority_categories limit =
      featuredSpec data priority_categories limit ∧
    (GetFeaturedDashboardsUseCase.execute data limit).length ≤ limit ∧
    (GetFeaturedDashboardsUseCase.execute data limit).all
      (fun r => priority_categories.any
        (fun c => py_lower r.categoria == py_lower c)) = true := by
  have hmain : DashboardRepository.get_featured_by_categories data
      priority_categories limit = featuredSpec data priority_categories limit := by
    unfold DashboardRepository.get_featured_by_categories featuredSpec
    rw [featuredOuter_eq_spec data limit priority_categories []
      (by simpa using h)]
    simp
  refine ⟨hmain, ?_, ?_⟩
  · unfold GetFeaturedDashboardsUseCase.execute
    rw [hmain]
    unfold featuredSpec
    simp [List.length_take]
  · unfold GetFeaturedDashboardsUseCase.execute
    rw [hmain]
    rw [List.all_eq_true]
    intro r hr
    rw [List.mem_map] at hr
    obtain ⟨d, hd, rfl⟩ := hr
    unfold featuredSpec at hd
    have hd2 := List.take_subset _ _ hd
    rw [List.mem_filterMap] at hd2
    obtain ⟨c, hc, hfind⟩ := hd2
    have hp := List.find?_some hfind
    rw [List.any_eq_true]
    exact ⟨c, hc, hp⟩

/-- Witness for C6 (amended): the single-`Operations`-dashboard store with
the default limit 3. -/
theorem claim6_witness :
    (DashboardRepository.get_featured_by_categories [demoDashboard]
        priority_categories 3 = featuredSpec [demoDashboard] priority_categories 3 ∧
      (GetFeaturedDashboardsUseCase.execute [demoDashboard] 3).length ≤ 3 ∧
      (GetFeaturedDashboardsUseCase.execute [demoDashboard] 3).all
        (fun r => priority_categories.any
          (fun c => py_lower r.categoria == py_lower c)) = true) :=
  claim6_featured_amended [demoDashboard] 3 (by decide)

end BIDashboard
